import Mathlib

/-!
Verification development for the quiz-solving agent orchestrator
(`agent.py`, `main.py` and the tool capabilities under `tools/`).

The Python source is shallowly embedded: pure decision logic becomes Lean
functions, stateful code becomes explicit state passing, wall-clock time
becomes an explicit rational-valued clock parameter (idealized: `time.sleep`
suspends for exactly the requested duration and reading the clock twice at
the same instant yields the same value), and fallible code returns
`Except`/`Option`.  The external reasoning service (the LLM) and the tool
side effects are oracles supplied as function parameters.
-/

namespace LLMQuiz

/-! ## String utilities

`strContains hay needle` mirrors Python's `needle in hay` (contiguous
substring containment). -/

/-- Is `needle` a contiguous sublist of `hay`?  Mirrors Python `in`. -/
def subList (needle hay : List Char) : Bool :=
  match hay with
  | [] => needle.isEmpty
  | _ :: t => needle.isPrefixOf hay || subList needle t

/-- Python `needle in hay` on strings. -/
def strContains (hay needle : String) : Bool :=
  subList needle.data hay.data

/-- Python `s.lower()`: lower-case character by character (the phrases and
contents involved are ASCII). -/
def strToLower (s : String) : String :=
  ⟨s.data.map Char.toLower⟩

/-! ## Data model (`agent.py`)

Messages carry a role, textual content, requested tool invocations (only
reasoner/AI messages have a nonempty list, mirroring LangChain where only
`AIMessage` has `tool_calls`), and — for tool-result messages — the id of
the invocation they answer. -/

/-- Message roles: system, human, reasoner (AI), tool-result. -/
inductive Role
  | system
  | human
  | ai
  | toolResult
deriving DecidableEq, Inhabited

/-- A requested tool invocation: tool name, call id, argument mapping. -/
structure ToolCall where
  name : String
  id : String
  args : List (String × String)
deriving DecidableEq, Inhabited

/-- One conversation turn (LangChain message). -/
structure Message where
  role : Role
  content : String
  tool_calls : List ToolCall
  tool_call_id : String
deriving DecidableEq, Inhabited

/-- `AgentState` from `agent.py` lines 22-30: conversation plus the
control-plane fields.  Timestamps and durations are rationals (seconds). -/
structure AgentState where
  messages : List Message
  email : String
  secret : String
  current_url : String
  start_time : ℚ
  quiz_count : ℕ
  max_time : ℚ
deriving DecidableEq, Inhabited

/-- The last element of the conversation, Python `messages[-1]`
(the conversation is nonempty at every use site). -/
def lastMessage (msgs : List Message) : Message :=
  msgs.getLastD default

/-- `should_continue` from `agent.py` lines 150-166, literally: first the
tool-call check (Python truthiness of the list), then the completion-phrase
check returning "end", then the default, also "end". -/
def should_continue (state : AgentState) : String :=
  let last := lastMessage state.messages
  if last.tool_calls ≠ [] then "tools"
  else
    let content := strToLower last.content
    if strContains content "quiz complete" || strContains content "no new url" ||
        strContains content "finished" then "end"
    else "end"

/-! ## The reasoning step (`call_model`, `agent.py` lines 168-202)

The reasoning service is an oracle from the prompt to the (content,
tool-calls) pair of the one `AIMessage` it returns. -/

/-- The reasoning-service oracle: prompt in, AI response out. -/
abbrev LLMOracle := List Message → String × List ToolCall

/-- The system prompt of `agent.py` lines 33-99 (abridged to its first
sentence; only its presence and role matter to the orchestrator). -/
def SYSTEM_PROMPT : String :=
  "You are an autonomous agent designed to solve data-related quiz tasks."

/-- The context message `call_model` synthesizes (`agent.py` lines 180-189):
identity, current reference, task counter, elapsed and remaining time. -/
def contextMessage (state : AgentState) (now : ℚ) : Message :=
  let elapsed := now - state.start_time
  let time_remaining := state.max_time - elapsed
  { role := Role.human
    content := "Current context: - Email: " ++ state.email ++ " - Secret: " ++
      state.secret ++ " - Current URL: " ++ state.current_url ++
      " - Quiz number: " ++ toString state.quiz_count ++ " - Time elapsed: " ++
      toString elapsed ++ "s - Time remaining: " ++ toString time_remaining ++
      "s Start by scraping the current URL to see the quiz question."
    tool_calls := []
    tool_call_id := "" }

/-- The prompt `call_model` sends: the conversation, with the system message
injected at the front if absent, then the fresh context message
(`agent.py` lines 172-191).  Note the prompt additions are local to the
call; only the response is appended to the persisted conversation. -/
def promptFor (state : AgentState) (now : ℚ) : List Message :=
  let msgs :=
    if state.messages.any (fun m => m.role = Role.system) then state.messages
    else ⟨Role.system, SYSTEM_PROMPT, [], ""⟩ :: state.messages
  msgs ++ [contextMessage state now]

/-- `call_model` (`agent.py` lines 168-202): build the prompt, invoke the
LLM, and append exactly the one response message to the conversation.  The
returned partial update `\x7b"messages": [response]\x7d` leaves every other
state channel (in particular `quiz_count`) unchanged. -/
def call_model (oracle : LLMOracle) (now : ℚ) (state : AgentState) : AgentState :=
  let response := oracle (promptFor state now)
  { state with
      messages := state.messages ++ [⟨Role.ai, response.1, response.2, ""⟩] }

/-! ## The acting step and graph execution

`agent.py` lines 204-228 wire the graph: entry point `agent` (`call_model`),
conditional edges via `should_continue` to `tools` or `END`, and an
unconditional edge `tools → agent`.  The `tools` node and the step-counted
graph executor are the `langgraph` library's (`ToolNode`,
`graph.ainvoke(..., recursion_limit)`), not code under `src/`. -/

/-- Tool-execution oracle: the textual result of one invocation. -/
abbrev ToolExec := ToolCall → String

/-- Modelled from the spec: the Tool Registry & Dispatcher (`langgraph`'s
`ToolNode`, not in the repository's files) "executes every requested
invocation in the latest reasoner message … and appends one tool-result
message per invocation, in request order" (spec section 4.1/4.3). -/
def tool_node (tx : ToolExec) (state : AgentState) : AgentState :=
  let last := lastMessage state.messages
  { state with
      messages := state.messages ++
        last.tool_calls.map (fun tc => ⟨Role.toolResult, tx tc, [], tc.id⟩) }

/-- The two graph nodes of `agent.py` lines 208-209. -/
inductive Node
  | agent
  | tools
deriving DecidableEq, Inhabited

/-- Outcome of one graph execution: final state, how many reasoning and
acting steps ran, and whether the recursion limit was hit. -/
structure RunResult where
  state : AgentState
  reasoningSteps : ℕ
  actingSteps : ℕ
  hitLimit : Bool
deriving DecidableEq

/-- Modelled from the spec: the graph executor (`langgraph`'s `ainvoke`,
not in the repository's files) drives the wiring declared in `agent.py`
lines 204-228 — entry `agent`, conditional edge by `should_continue`,
edge `tools → agent` — counting one super-step per node execution and
failing with a recursion error when the configured limit is exhausted
("a hard iteration ceiling … forces Terminal regardless of content",
spec section 4.1).  `clock k` is the wall-clock time at super-step `k`. -/
def runGraph (oracle : LLMOracle) (tx : ToolExec) (clock : ℕ → ℚ) :
    ℕ → ℕ → Node → AgentState → RunResult
  | 0, _, _, s => ⟨s, 0, 0, true⟩
  | fuel + 1, k, Node.agent, s =>
      let s1 := call_model oracle (clock k) s
      if should_continue s1 = "tools" then
        let r := runGraph oracle tx clock fuel (k + 1) Node.tools s1
        { r with reasoningSteps := r.reasoningSteps + 1 }
      else ⟨s1, 1, 0, false⟩
  | fuel + 1, k, Node.tools, s =>
      let r := runGraph oracle tx clock fuel (k + 1) Node.agent (tool_node tx s)
      { r with actingSteps := r.actingSteps + 1 }

/-- `recursion_limit` from `agent.py` line 265. -/
def recursion_limit : ℕ := 200

/-- The initial state built by `run_agent` (`agent.py` lines 249-259). -/
def initialState (email secret url : String) (t0 : ℚ) : AgentState :=
  { messages := [⟨Role.human, "Solve the quiz at this URL: " ++ url, [], ""⟩]
    email := email
    secret := secret
    current_url := url
    start_time := t0
    quiz_count := 1
    max_time := 180 }

/-- The final report of `run_agent` (`agent.py` lines 275-296): the success
dictionary carries `quiz_count`; the failure dictionary does not. -/
structure Report where
  success : Bool
  quiz_count : Option ℕ
deriving DecidableEq

/-- `run_agent` (`agent.py` lines 230-296): run the graph with the
configured recursion limit; a raised recursion-limit error is caught by the
surrounding `except` and reported as failure, a normal finish reports
success and the final state's `quiz_count` (default 1). -/
def run_agent (oracle : LLMOracle) (tx : ToolExec) (clock : ℕ → ℚ)
    (email secret url : String) (t0 : ℚ) : Report :=
  let r := runGraph oracle tx clock recursion_limit 0 Node.agent
    (initialState email secret url t0)
  if r.hitLimit then ⟨false, none⟩ else ⟨true, some r.state.quiz_count⟩

/-! ## The rate-limited gateway (`RateLimitedLLM`, `agent.py` lines 102-136)

The limiter state is the process-wide `last_call_time` (initially `0`).
Real time is idealized: `time.sleep(w)` suspends for exactly `w` seconds,
and consecutive clock reads at the same instant agree.  Under that
idealization, an invocation arriving at wall time `now` issues its
underlying service call at `computeIssue last now` and records that issue
time — `agent.py` line 127 runs before `self.llm.invoke`, so the recorded
timestamp is the issue time, not the completion time. -/

/-- Process-wide rate limiter state: `self.last_call_time`. -/
structure LimiterState where
  last_call_time : ℚ
deriving DecidableEq, Inhabited

/-- `min_interval = 60.0 / 9` (`agent.py` line 112). -/
def min_interval : ℚ := 60 / 9

/-- When the underlying call is issued for an invocation arriving at `now`
with recorded last-call timestamp `last` (`agent.py` lines 117-124): wait
out the remaining difference if the elapsed time is below the minimum
interval, otherwise proceed immediately. -/
def computeIssue (last now : ℚ) : ℚ :=
  if now - last < min_interval then now + (min_interval - (now - last))
  else now

/-- One timed gateway invocation: the issue time of the underlying call,
its completion time (`d` is the service call's duration), and the limiter
state afterwards.  `agent.py` line 127 records the issue time. -/
structure RlCall where
  issue : ℚ
  completed : ℚ
  after : LimiterState
deriving DecidableEq

/-- `RateLimitedLLM.invoke` (`agent.py` lines 114-128) as a state
transformer on the limiter state, for a call of duration `d` arriving at
wall time `now`. -/
def rl_invoke (s : LimiterState) (now d : ℚ) : RlCall :=
  let issue := computeIssue s.last_call_time now
  ⟨issue, issue + d, ⟨issue⟩⟩

/-- The issue times of a sequence of non-overlapping (sequential) gateway
invocations arriving at wall times `ts`, threading the limiter state. -/
def rl_run (s : LimiterState) : List ℚ → List ℚ
  | [] => []
  | t :: ts =>
      let c := rl_invoke s t 0
      c.issue :: rl_run c.after ts

/-- Consecutive elements are at least `min_interval` apart. -/
def Spaced (l : List ℚ) : Prop :=
  List.Chain' (fun a b => a + min_interval ≤ b) l

/-! ### Interleaved executions of the limiter

`invoke` is a plain method with no lock; under `langgraph`, synchronous
nodes of concurrent runs execute on distinct worker threads, all sharing
the module-level `llm` instance (`agent.py` line 136).  Each thread's
invocation decomposes into two atomic phases separated by a possible
suspension: (read) read the clock and `last_call_time` and determine the
issue time, then (fire) at that issue time, write `last_call_time` and
issue the service call.  Nothing orders the phases of different threads. -/

/-- Where one thread is in its `invoke` call. -/
inductive ThreadPhase
  | idle
  | ready (issueAt : ℚ)
  | done
deriving DecidableEq, Inhabited

/-- Shared limiter plus the phase of each of two threads. -/
structure ConcState where
  last : ℚ
  th1 : ThreadPhase
  th2 : ThreadPhase
deriving DecidableEq, Inhabited

/-- Observable events: a thread reading the limiter at a wall time, or a
thread issuing (firing) its service call at a wall time. -/
inductive RlEvent
  | read (tid : Bool) (t : ℚ)
  | fire (tid : Bool) (t : ℚ)
deriving DecidableEq, Inhabited

/-- Interleaving semantics of two concurrent `invoke` calls on the shared
limiter: a read computes the issue time from the current shared state; a
fire happens at that issue time, records it and issues the call. -/
inductive RlStep : ConcState → RlEvent → ConcState → Prop
  | read1 (c : ConcState) (t i : ℚ) (h : c.th1 = ThreadPhase.idle)
      (hi : i = computeIssue c.last t) :
      RlStep c (RlEvent.read true t) { c with th1 := ThreadPhase.ready i }
  | read2 (c : ConcState) (t i : ℚ) (h : c.th2 = ThreadPhase.idle)
      (hi : i = computeIssue c.last t) :
      RlStep c (RlEvent.read false t) { c with th2 := ThreadPhase.ready i }
  | fire1 (c : ConcState) (i : ℚ) (h : c.th1 = ThreadPhase.ready i) :
      RlStep c (RlEvent.fire true i)
        { c with th1 := ThreadPhase.done, last := i }
  | fire2 (c : ConcState) (i : ℚ) (h : c.th2 = ThreadPhase.ready i) :
      RlStep c (RlEvent.fire false i)
        { c with th2 := ThreadPhase.done, last := i }

/-- A valid interleaved execution. -/
inductive RlTrace : ConcState → List RlEvent → ConcState → Prop
  | nil (c : ConcState) : RlTrace c [] c
  | cons {c c' c'' : ConcState} {e : RlEvent} {es : List RlEvent}
      (hs : RlStep c e c') (ht : RlTrace c' es c'') : RlTrace c (e :: es) c''

/-- Wall-clock time of an event. -/
def eventTime : RlEvent → ℚ
  | RlEvent.read _ t => t
  | RlEvent.fire _ t => t

/-- Event times never go backwards along the trace. -/
def TimesMono (es : List RlEvent) : Prop :=
  List.Chain' (fun a b => eventTime a ≤ eventTime b) es

/-- The service-call issue times of a trace, in order. -/
def fireTimes (es : List RlEvent) : List ℚ :=
  es.filterMap (fun e =>
    match e with
    | RlEvent.fire _ t => some t
    | RlEvent.read _ _ => none)

/-! ## `post_request` (`tools/send_request.py` lines 8-104)

Outcomes of the attempted POST.  Note: `send_request.py` never imports
`asyncio`, yet its first handler clause (line 90) is
`except asyncio.TimeoutError`.  In Python, when any exception from the
`try` body reaches the handlers, the clause expressions are evaluated in
order to test a match; evaluating the unbound name `asyncio` raises
`NameError`, which propagates out of `post_request` — the subsequent
`except Exception` clause is never consulted.  The embedding reproduces
exactly that. -/

/-- A Python exception escaping the embedded function. -/
inductive PyExn
  | nameError (nm : String)
deriving DecidableEq

/-- How the network phase of the POST ends. -/
inductive NetOutcome
  | response (status : ℤ) (body : String)
  | timeout
  | connectionError (msg : String)
deriving DecidableEq

/-- The JSON error string built at `send_request.py` lines 47-50. -/
def jsonErrString (msg : String) : String :=
  "\x7b\"error\": \"" ++ msg ++ "\", \"status_code\": -1\x7d"

/-- The JSON result string built at `send_request.py` lines 72-88. -/
def jsonOkString (status : ℤ) (body : String) : String :=
  "\x7b\"status_code\": " ++ toString status ++ ", \"response\": " ++ body ++
    "\x7d"

/-- `post_request` (`tools/send_request.py` lines 40-104).
`serializeError = some e` models `json.dumps(payload)` raising with message
`e`; `none` models a serializable payload.  A timeout or any other network
error reaches the `except asyncio.TimeoutError` clause whose evaluation
raises `NameError` (unbound `asyncio`), so those paths throw. -/
def post_request (serializeError : Option String) (outcome : NetOutcome) :
    Except PyExn String :=
  match serializeError with
  | some e => Except.ok (jsonErrString ("Failed to serialize payload: " ++ e))
  | none =>
      match outcome with
      | NetOutcome.response status body =>
          Except.ok (jsonOkString status body)
      | NetOutcome.timeout => Except.error (PyExn.nameError "asyncio")
      | NetOutcome.connectionError _ => Except.error (PyExn.nameError "asyncio")

/-! ## `download_file` (`tools/download_file.py` lines 9-79) -/

/-- Everything after the last '/' — `os.path.basename` on POSIX, as a fold
that restarts the accumulator at each separator. -/
def afterLastSlash (l : List Char) : List Char :=
  l.foldl (fun acc c => if c = '/' then [] else acc ++ [c]) []

/-- `os.path.basename` (POSIX): the part of the path after the last '/'. -/
def basename (s : String) : String :=
  ⟨afterLastSlash s.data⟩

/-- Filename selection (`download_file.py` lines 32-40): the explicit
argument if given, else the basename of the URL path, else the fixed
fallback name. -/
def chooseFilename (filename : Option String) (urlPath : String) : String :=
  match filename with
  | some f => f
  | none =>
      let f := basename urlPath
      if f = "" then "downloaded_file" else f

/-- Line 43: `filename = os.path.basename(filename)`. -/
def sanitizedFilename (filename : Option String) (urlPath : String) : String :=
  basename (chooseFilename filename urlPath)

/-- Line 46: `filepath = os.path.join("LLMFiles", filename)`.  Since the
joined name comes out of `basename` it contains no separator and is not
absolute, so the POSIX join is plain concatenation with one separator. -/
def downloadPath (filename : Option String) (urlPath : String) : String :=
  "LLMFiles/" ++ sanitizedFilename filename urlPath

/-- `download_file` (`tools/download_file.py` lines 49-74) after the path
computation, for a response with the given status and body: the returned
string, and the saved artifact (path, contents) if any.  Line 51 tests
`response.status != 200`. -/
def download_file (filename : Option String) (urlPath : String)
    (status : ℤ) (body : String) : String × Option (String × String) :=
  let filepath := downloadPath filename urlPath
  if status ≠ 200 then
    ("Error: Failed to download: HTTP " ++ toString status, none)
  else (filepath, some (filepath, body))

/-- A 2xx HTTP status. -/
def is2xx (status : ℤ) : Bool :=
  200 ≤ status && status < 300

/-- The saved path lies strictly inside the `LLMFiles` working directory:
one separator-free, non-dot component below it. -/
def insideLLMFiles (p : String) : Prop :=
  ∃ b : String, p = "LLMFiles/" ++ b ∧ ('/' ∈ b.data → False) ∧
    b ≠ "" ∧ b ≠ "." ∧ b ≠ ".."

/-! ## Decidability instances for the temporal predicates -/

instance : DecidableRel (fun a b : ℚ => a + min_interval ≤ b) :=
  fun a b => inferInstanceAs (Decidable (a + min_interval ≤ b))

instance (l : List ℚ) : Decidable (Spaced l) := by
  unfold Spaced; infer_instance

instance : DecidableRel (fun a b : RlEvent => eventTime a ≤ eventTime b) :=
  fun a b => inferInstanceAs (Decidable (eventTime a ≤ eventTime b))

instance (es : List RlEvent) : Decidable (TimesMono es) := by
  unfold TimesMono; infer_instance

/-! ## Helper lemmas about the state machine -/

theorem lastMessage_append (msgs : List Message) (m : Message) :
    lastMessage (msgs ++ [m]) = m :=
  List.getLastD_concat _ _ _

theorem should_continue_tools (s : AgentState)
    (h : (lastMessage s.messages).tool_calls ≠ []) :
    should_continue s = "tools" := by
  simp [should_continue, h]

theorem should_continue_end (s : AgentState)
    (h : (lastMessage s.messages).tool_calls = []) :
    should_continue s = "end" := by
  simp [should_continue, h]

theorem should_continue_cases (s : AgentState) :
    should_continue s = "tools" ∨ should_continue s = "end" := by
  by_cases h : (lastMessage s.messages).tool_calls = []
  · exact Or.inr (should_continue_end s h)
  · exact Or.inl (should_continue_tools s h)

theorem lastMessage_call_model (oracle : LLMOracle) (now : ℚ) (s : AgentState) :
    lastMessage (call_model oracle now s).messages =
      ⟨Role.ai, (oracle (promptFor s now)).1, (oracle (promptFor s now)).2, ""⟩ := by
  unfold call_model
  exact lastMessage_append _ _

/-- C1: the Reasoning → Terminal / Reasoning → Acting decision depends only
on whether the latest reasoner message requests tool invocations: "tools"
exactly when it requests at least one, "end" exactly when it requests none
(completion phrases are immaterial — both content branches return "end");
consequently a run whose first reasoner response requests no tools ends
after exactly one reasoning step and zero acting steps, without hitting the
iteration ceiling. -/
theorem C1_terminal_iff_no_toolcalls :
    (∀ s : AgentState,
      should_continue s = "tools" ↔ (lastMessage s.messages).tool_calls ≠ []) ∧
    (∀ s : AgentState,
      should_continue s = "end" ↔ (lastMessage s.messages).tool_calls = []) ∧
    (∀ (oracle : LLMOracle) (tx : ToolExec) (clock : ℕ → ℚ)
        (email secret url : String) (t0 : ℚ),
      (oracle (promptFor (initialState email secret url t0) (clock 0))).2 = [] →
      runGraph oracle tx clock recursion_limit 0 Node.agent
          (initialState email secret url t0) =
        ⟨call_model oracle (clock 0) (initialState email secret url t0),
          1, 0, false⟩) := by
  refine ⟨?_, ?_, ?_⟩
  · intro s
    constructor
    · intro h hc
      rw [should_continue_end s hc] at h
      exact absurd h (by decide)
    · exact should_continue_tools s
  · intro s
    constructor
    · intro h
      by_contra hc
      rw [should_continue_tools s hc] at h
      exact absurd h (by decide)
    · exact should_continue_end s
  · intro oracle tx clock email secret url t0 h
    have hlast : (lastMessage (call_model oracle (clock 0)
        (initialState email secret url t0)).messages).tool_calls = [] := by
      rw [lastMessage_call_model, h]
    have hsc := should_continue_end _ hlast
    show runGraph oracle tx clock (199 + 1) 0 Node.agent
        (initialState email secret url t0) = _
    rw [runGraph, if_neg (by rw [hsc]; decide)]

/-- C1 witness: a concrete run whose reasoner immediately answers without
requesting tools ends after exactly one reasoning step. -/
theorem C1_witness :
    runGraph (fun _ => ("I could not find the page.", []))
        (fun _ => "") (fun _ => 0) recursion_limit 0 Node.agent
        (initialState "a@b.c" "sec" "https://example.com/quiz-1" 0) =
      ⟨call_model (fun _ => ("I could not find the page.", [])) 0
          (initialState "a@b.c" "sec" "https://example.com/quiz-1" 0),
        1, 0, false⟩ :=
  C1_terminal_iff_no_toolcalls.2.2
    (fun _ => ("I could not find the page.", [])) (fun _ => "") (fun _ => 0)
    "a@b.c" "sec" "https://example.com/quiz-1" 0 rfl

/-- C8: the continue/terminate decision after a Reasoning step reads only
the message sequence — two run states agreeing on messages (in particular
one past its deadline and one within it) decide identically; the timing
fields flow only into the freshly synthesized context message, which goes
last in the prompt handed to the reasoner as advisory information. -/
theorem C8_deadline_is_advisory :
    (∀ s1 s2 : AgentState, s1.messages = s2.messages →
      should_continue s1 = should_continue s2) ∧
    (∀ (s : AgentState) (now : ℚ),
      (promptFor s now).getLastD default = contextMessage s now) := by
  constructor
  · intro s1 s2 h
    simp only [should_continue, h]
  · intro s now
    simp only [promptFor]
    exact List.getLastD_concat _ _ _

/-! ## The iteration ceiling -/

theorem runGraph_steps_le (oracle : LLMOracle) (tx : ToolExec) (clock : ℕ → ℚ) :
    ∀ (fuel k : ℕ) (node : Node) (s : AgentState),
      (runGraph oracle tx clock fuel k node s).reasoningSteps +
        (runGraph oracle tx clock fuel k node s).actingSteps ≤ fuel := by
  intro fuel
  induction fuel with
  | zero => intro k node s; simp [runGraph]
  | succ n ih =>
      intro k node s
      cases node with
      | agent =>
          rw [runGraph]
          by_cases h : should_continue (call_model oracle (clock k) s) = "tools"
          · simp only [h, if_true]
            have := ih (k + 1) Node.tools (call_model oracle (clock k) s)
            omega
          · simp only [h, if_false]
            omega
      | tools =>
          rw [runGraph]
          dsimp only
          have := ih (k + 1) Node.agent (tool_node tx s)
          omega

theorem runGraph_hitLimit_of_alwaysAct (oracle : LLMOracle) (tx : ToolExec)
    (clock : ℕ → ℚ) (hact : ∀ p, (oracle p).2 ≠ []) :
    ∀ (fuel k : ℕ) (node : Node) (s : AgentState),
      (runGraph oracle tx clock fuel k node s).hitLimit = true := by
  intro fuel
  induction fuel with
  | zero => intro k node s; simp [runGraph]
  | succ n ih =>
      intro k node s
      cases node with
      | agent =>
          rw [runGraph]
          have hsc : should_continue (call_model oracle (clock k) s) = "tools" := by
            apply should_continue_tools
            rw [lastMessage_call_model]
            exact hact _
          simp only [hsc, if_true]
          exact ih (k + 1) Node.tools (call_model oracle (clock k) s)
      | tools =>
          rw [runGraph]
          exact ih (k + 1) Node.agent (tool_node tx s)

/-- C6: the configured ceiling is 200; every run performs at most `fuel`
super-steps — reasoning plus acting steps never exceed the recursion limit —
and a reasoner that always requests further tools (whatever its text says)
drives the run into the limit, which `run_agent` reports as failure: the
run is forced to end. -/
theorem C6_iteration_ceiling :
    recursion_limit = 200 ∧
    (∀ (oracle : LLMOracle) (tx : ToolExec) (clock : ℕ → ℚ)
        (fuel k : ℕ) (node : Node) (s : AgentState),
      (runGraph oracle tx clock fuel k node s).reasoningSteps +
        (runGraph oracle tx clock fuel k node s).actingSteps ≤ fuel) ∧
    (∀ (oracle : LLMOracle) (tx : ToolExec) (clock : ℕ → ℚ)
        (email secret url : String) (t0 : ℚ),
      (∀ p, (oracle p).2 ≠ []) →
      (runGraph oracle tx clock recursion_limit 0 Node.agent
          (initialState email secret url t0)).hitLimit = true ∧
      (run_agent oracle tx clock email secret url t0).success = false) := by
  refine ⟨rfl, runGraph_steps_le, ?_⟩
  intro oracle tx clock email secret url t0 hact
  have h := runGraph_hitLimit_of_alwaysAct oracle tx clock hact
    recursion_limit 0 Node.agent (initialState email secret url t0)
  refine ⟨h, ?_⟩
  unfold run_agent
  simp only [h, if_true]

/-- C6 witness: with a reasoner stuck requesting the same tool forever, the
concrete run hits the ceiling and is reported failed. -/
theorem C6_witness :
    (runGraph (fun _ => ("again", [⟨"run_code", "c", []⟩]))
        (fun _ => "ok") (fun _ => 0) recursion_limit 0 Node.agent
        (initialState "a@b.c" "sec" "u" 0)).hitLimit = true ∧
    (run_agent (fun _ => ("again", [⟨"run_code", "c", []⟩]))
        (fun _ => "ok") (fun _ => 0) "a@b.c" "sec" "u" 0).success = false :=
  C6_iteration_ceiling.2.2 (fun _ => ("again", [⟨"run_code", "c", []⟩]))
    (fun _ => "ok") (fun _ => 0) "a@b.c" "sec" "u" 0 (fun _ => by simp)

/-! ## Tool-result bookkeeping (claim C7)

One Reasoning → Acting round trip is `call_model` followed by `tool_node`;
`roundTrips` chains `n` of them (the graph wiring `agent → tools → agent`
of `agent.py` lines 215-225). -/

/-- One Reasoning → Acting round trip. -/
def roundTrip (oracle : LLMOracle) (tx : ToolExec) (now : ℚ)
    (s : AgentState) : AgentState :=
  tool_node tx (call_model oracle now s)

/-- `n` consecutive round trips, the `i`-th at wall time `clock (k + i)`. -/
def roundTrips (oracle : LLMOracle) (tx : ToolExec) (clock : ℕ → ℚ) :
    ℕ → ℕ → AgentState → AgentState
  | _, 0, s => s
  | k, n + 1, s =>
      roundTrips oracle tx clock (k + 1) n (roundTrip oracle tx (clock k) s)

/-- The invocation ids requested across all reasoner messages, in order. -/
def aiRequestedIds (msgs : List Message) : List String :=
  msgs.flatMap fun m =>
    if m.role = Role.ai then m.tool_calls.map (fun tc => tc.id) else []

/-- The invocation ids answered by the tool-result messages, in order. -/
def toolResultIds (msgs : List Message) : List String :=
  (msgs.filter fun m => m.role = Role.toolResult).map fun m => m.tool_call_id

theorem aiRequestedIds_append (l1 l2 : List Message) :
    aiRequestedIds (l1 ++ l2) = aiRequestedIds l1 ++ aiRequestedIds l2 := by
  simp [aiRequestedIds]

theorem toolResultIds_append (l1 l2 : List Message) :
    toolResultIds (l1 ++ l2) = toolResultIds l1 ++ toolResultIds l2 := by
  simp [toolResultIds]

theorem aiRequestedIds_result_block (tx : ToolExec) (tcs : List ToolCall) :
    aiRequestedIds
      (tcs.map fun tc => (⟨Role.toolResult, tx tc, [], tc.id⟩ : Message)) = [] := by
  induction tcs with
  | nil => rfl
  | cons tc tcs _ih => simp [aiRequestedIds]

theorem toolResultIds_result_block (tx : ToolExec) (tcs : List ToolCall) :
    toolResultIds
        (tcs.map fun tc => (⟨Role.toolResult, tx tc, [], tc.id⟩ : Message)) =
      tcs.map fun tc => tc.id := by
  induction tcs with
  | nil => rfl
  | cons tc tcs ih => simp [toolResultIds] at ih ⊢; exact ih

theorem ids_roundTrip (oracle : LLMOracle) (tx : ToolExec) (now : ℚ)
    (s : AgentState) (h : toolResultIds s.messages = aiRequestedIds s.messages) :
    toolResultIds (roundTrip oracle tx now s).messages =
      aiRequestedIds (roundTrip oracle tx now s).messages := by
  unfold roundTrip tool_node
  rw [lastMessage_call_model]
  unfold call_model
  simp only [toolResultIds_append, aiRequestedIds_append,
    toolResultIds_result_block, aiRequestedIds_result_block, h]
  simp [toolResultIds, aiRequestedIds]

/-- C7: first, the acting step appends exactly one tool-result message per
requested invocation, in request order (this is the shape of `tool_node`);
second, over any number of Reasoning → Acting round trips, the ids answered
by the appended tool-result messages — counted and ordered — stay equal to
the ids of the invocations requested by the reasoner messages. -/
theorem C7_tool_results_match_requests :
    (∀ (tx : ToolExec) (s : AgentState),
      (tool_node tx s).messages =
        s.messages ++ (lastMessage s.messages).tool_calls.map
          (fun tc => (⟨Role.toolResult, tx tc, [], tc.id⟩ : Message))) ∧
    (∀ (oracle : LLMOracle) (tx : ToolExec) (clock : ℕ → ℚ) (k n : ℕ)
        (s : AgentState),
      toolResultIds s.messages = aiRequestedIds s.messages →
      toolResultIds (roundTrips oracle tx clock k n s).messages =
        aiRequestedIds (roundTrips oracle tx clock k n s).messages) := by
  constructor
  · intro tx s
    rfl
  · intro oracle tx clock k n
    induction n generalizing k with
    | zero => intro s h; exact h
    | succ m ih =>
        intro s h
        exact ih (k + 1) _ (ids_roundTrip oracle tx (clock k) s h)

/-- C7 witness: two concrete round trips of a reasoner that requests one
invocation per step keep results and requests in bijective, order-preserving
correspondence. -/
theorem C7_witness :
    toolResultIds (roundTrips
        (fun p => if p.any (fun m => m.role = Role.toolResult) then
            ("done", [⟨"post_request", "call_2", []⟩])
          else ("start", [⟨"get_rendered_html", "call_1", []⟩]))
        (fun tc => "result of " ++ tc.name) (fun _ => 0) 0 2
        (initialState "a@b.c" "sec" "u" 0)).messages =
      aiRequestedIds (roundTrips
        (fun p => if p.any (fun m => m.role = Role.toolResult) then
            ("done", [⟨"post_request", "call_2", []⟩])
          else ("start", [⟨"get_rendered_html", "call_1", []⟩]))
        (fun tc => "result of " ++ tc.name) (fun _ => 0) 0 2
        (initialState "a@b.c" "sec" "u" 0)).messages :=
  C7_tool_results_match_requests.2
    (fun p => if p.any (fun m => m.role = Role.toolResult) then
        ("done", [⟨"post_request", "call_2", []⟩])
      else ("start", [⟨"get_rendered_html", "call_1", []⟩]))
    (fun tc => "result of " ++ tc.name) (fun _ => 0) 0 2
    (initialState "a@b.c" "sec" "u" 0) rfl

/-! ## The task counter (claim C3)

`call_model` returns only a messages update (`agent.py` lines 197-202);
no node of the graph ever writes `quiz_count`, so it stays at its initial
value 1 for the whole run. -/

/-- Does some tool-result message report a next reference (a `url` field in
a submit-answer response, `agent.py` system prompt section 8)? -/
def newRefIndicated (msgs : List Message) : Bool :=
  msgs.any fun m =>
    (m.role == Role.toolResult) && strContains m.content "\"url\":"

/-- A reasoner that submits an answer once, then stops requesting tools. -/
def chainOracle : LLMOracle := fun p =>
  if p.any (fun m => m.role = Role.toolResult) then ("All done.", [])
  else ("submitting", [⟨"post_request", "call_1", []⟩])

/-- A submit-answer result that reports the answer correct and carries the
next quiz reference. -/
def chainToolExec : ToolExec := fun _ =>
  "\x7b\"correct\": true, \"url\": \"https://example.com/quiz-2\"\x7d"

/-- C3 counterexample: a concrete run in which the workflow obtains a new
reference — the submit-answer result carries a next `url` — yet the final
state's task counter still equals its initial value 1, and the final report
exposes `some 1`: the counter was not incremented when the new reference
was obtained. -/
theorem C3_counterexample :
    (runGraph chainOracle chainToolExec (fun _ => 0) recursion_limit 0
        Node.agent (initialState "a@b.c" "sec" "https://example.com/quiz-1" 0)).hitLimit
        = false ∧
    newRefIndicated (runGraph chainOracle chainToolExec (fun _ => 0)
        recursion_limit 0 Node.agent
        (initialState "a@b.c" "sec" "https://example.com/quiz-1" 0)).state.messages
        = true ∧
    (runGraph chainOracle chainToolExec (fun _ => 0) recursion_limit 0
        Node.agent
        (initialState "a@b.c" "sec" "https://example.com/quiz-1" 0)).state.quiz_count
        = 1 ∧
    (run_agent chainOracle chainToolExec (fun _ => 0) "a@b.c" "sec"
        "https://example.com/quiz-1" 0).quiz_count = some 1 :=
  ⟨by decide, by decide, by decide, by decide⟩

theorem runGraph_quiz_count (oracle : LLMOracle) (tx : ToolExec)
    (clock : ℕ → ℚ) :
    ∀ (fuel k : ℕ) (node : Node) (s : AgentState),
      (runGraph oracle tx clock fuel k node s).state.quiz_count =
        s.quiz_count := by
  intro fuel
  induction fuel with
  | zero => intro k node s; rfl
  | succ n ih =>
      intro k node s
      cases node with
      | agent =>
          rw [runGraph]
          by_cases h : should_continue (call_model oracle (clock k) s) = "tools"
          · simp only [h, if_true]
            exact ih (k + 1) Node.tools (call_model oracle (clock k) s)
          · simp only [h, if_false]
            rfl
      | tools =>
          rw [runGraph]
          exact ih (k + 1) Node.agent (tool_node tx s)

/-- C3 amended: no step of the run ever increments the task counter — the
reasoning step, the acting step, and hence the whole graph execution leave
`quiz_count` at its initial value — so a successful run's final report
always exposes `some 1`; and the counter never gates termination:
`should_continue` is insensitive to it. -/
theorem C3_counter_never_incremented :
    (∀ (oracle : LLMOracle) (now : ℚ) (s : AgentState),
      (call_model oracle now s).quiz_count = s.quiz_count) ∧
    (∀ (tx : ToolExec) (s : AgentState),
      (tool_node tx s).quiz_count = s.quiz_count) ∧
    (∀ (oracle : LLMOracle) (tx : ToolExec) (clock : ℕ → ℚ)
        (fuel k : ℕ) (node : Node) (s : AgentState),
      (runGraph oracle tx clock fuel k node s).state.quiz_count =
        s.quiz_count) ∧
    (∀ (oracle : LLMOracle) (tx : ToolExec) (clock : ℕ → ℚ)
        (email secret url : String) (t0 : ℚ),
      (run_agent oracle tx clock email secret url t0).success = true →
      (run_agent oracle tx clock email secret url t0).quiz_count = some 1) ∧
    (∀ (s : AgentState) (n : ℕ),
      should_continue { s with quiz_count := n } = should_continue s) := by
  refine ⟨fun _ _ _ => rfl, fun _ _ => rfl, fun o tx c => runGraph_quiz_count o tx c,
    ?_, fun _ _ => rfl⟩
  intro oracle tx clock email secret url t0 h
  unfold run_agent at h ⊢
  by_cases hl : (runGraph oracle tx clock recursion_limit 0 Node.agent
      (initialState email secret url t0)).hitLimit = true
  · rw [if_pos hl] at h
    exact absurd h (by decide)
  · rw [if_neg hl]
    dsimp only
    rw [runGraph_quiz_count]
    rfl

/-- C3 amended-claim witness: the successful concrete chaining run reports
`some 1`. -/
theorem C3_witness :
    (run_agent chainOracle chainToolExec (fun _ => 0) "a@b.c" "sec"
        "https://example.com/quiz-1" 0).quiz_count = some 1 :=
  C3_counter_never_incremented.2.2.2.1 chainOracle chainToolExec (fun _ => 0)
    "a@b.c" "sec" "https://example.com/quiz-1" 0 (by decide)

/-! ## The rate limiter: sequential spacing and the concurrent race -/

theorem min_interval_pos : (0 : ℚ) < min_interval := by
  unfold min_interval; norm_num

theorem le_computeIssue (last now : ℚ) :
    last + min_interval ≤ computeIssue last now := by
  unfold computeIssue
  split_ifs with h
  · linarith
  · linarith

/-- C4 counterexample: the first invocation (limiter fresh, arriving at
time 100, underlying call lasting 5 seconds) records `last_call_time = 100`,
the issue time, while the call completes at 105 — the recorded timestamp is
not the completion timestamp the claim describes, and the next invocation's
elapsed-time comparison therefore runs against 100, not 105. -/
theorem C4_counterexample :
    (rl_invoke ⟨0⟩ 100 5).after.last_call_time = 100 ∧
    (rl_invoke ⟨0⟩ 100 5).completed = 105 ∧
    (100 : ℚ) ≠ 105 := by
  refine ⟨?_, ?_, by norm_num⟩
  · show computeIssue 0 100 = 100
    unfold computeIssue min_interval
    norm_num
  · show computeIssue 0 100 + 5 = 105
    unfold computeIssue min_interval
    norm_num

/-- C4 amended: each invocation computes the elapsed time since the
previous call was issued (the recorded timestamp); when that is below the
minimum interval the caller is suspended for exactly the remaining
difference (issuing at `now + (min_interval - elapsed)`), otherwise the
call is issued immediately; the timestamp recorded for the next
invocation's comparison is the issue time, taken after the wait and before
the underlying call proceeds — hence successive issue times are always at
least `min_interval` after the previously recorded timestamp, and the
completion time is the issue time plus the call's duration. -/
theorem C4_issue_time_recorded (s : LimiterState) (now d : ℚ) :
    (now - s.last_call_time < min_interval →
      (rl_invoke s now d).issue =
        now + (min_interval - (now - s.last_call_time))) ∧
    (min_interval ≤ now - s.last_call_time →
      (rl_invoke s now d).issue = now) ∧
    (rl_invoke s now d).after.last_call_time = (rl_invoke s now d).issue ∧
    s.last_call_time + min_interval ≤ (rl_invoke s now d).issue ∧
    (rl_invoke s now d).completed = (rl_invoke s now d).issue + d := by
  refine ⟨?_, ?_, rfl, le_computeIssue _ _, rfl⟩
  · intro h
    show computeIssue s.last_call_time now = _
    unfold computeIssue
    rw [if_pos h]
  · intro h
    show computeIssue s.last_call_time now = now
    unfold computeIssue
    rw [if_neg (by linarith)]

/-- C4 amended-claim witness at the concrete first invocation. -/
theorem C4_witness :
    ((100 : ℚ) - (⟨0⟩ : LimiterState).last_call_time < min_interval →
      (rl_invoke ⟨0⟩ 100 5).issue =
        100 + (min_interval - (100 - (⟨0⟩ : LimiterState).last_call_time))) ∧
    (min_interval ≤ (100 : ℚ) - (⟨0⟩ : LimiterState).last_call_time →
      (rl_invoke ⟨0⟩ 100 5).issue = 100) ∧
    (rl_invoke ⟨0⟩ 100 5).after.last_call_time = (rl_invoke ⟨0⟩ 100 5).issue ∧
    (⟨0⟩ : LimiterState).last_call_time + min_interval ≤
      (rl_invoke ⟨0⟩ 100 5).issue ∧
    (rl_invoke ⟨0⟩ 100 5).completed = (rl_invoke ⟨0⟩ 100 5).issue + 5 :=
  C4_issue_time_recorded ⟨0⟩ 100 5

theorem rl_run_chain_aux (ts : List ℚ) :
    ∀ x : ℚ, List.Chain' (fun a b => a + min_interval ≤ b)
      (x :: rl_run ⟨x⟩ ts) := by
  induction ts with
  | nil => intro x; simp [rl_run]
  | cons t ts ih =>
      intro x
      show List.Chain' _ (x :: computeIssue x t ::
        rl_run ⟨computeIssue x t⟩ ts)
      rw [List.chain'_cons]
      exact ⟨le_computeIssue x t, ih (computeIssue x t)⟩

/-- C2 amended (sequential part): for non-overlapping invocations threaded
through the limiter, consecutive recorded issue times are always at least
the configured minimum interval (60/9 seconds) apart. -/
theorem C2_sequential_spacing (s : LimiterState) (ts : List ℚ) :
    Spaced (rl_run s ts) := by
  cases ts with
  | nil => simp [rl_run, Spaced]
  | cons t ts =>
      show List.Chain' _ (computeIssue s.last_call_time t ::
        rl_run ⟨computeIssue s.last_call_time t⟩ ts)
      exact (rl_run_chain_aux ts (computeIssue s.last_call_time t))

/-- The racing schedule: both threads read the fresh limiter at time 100,
then both fire at time 100. -/
def raceEvents : List RlEvent :=
  [RlEvent.read true 100, RlEvent.read false 100,
    RlEvent.fire true 100, RlEvent.fire false 100]

/-- C2 counterexample: the claim asserts minimum spacing process-wide
across concurrent runs, but `invoke` reads `last_call_time` and later
writes it with no lock between the two, so the interleaving in which both
worker threads read the fresh limiter state before either fires is a valid
execution — it is monotone in time and issues two reasoning calls at the
same instant, violating the minimum spacing, whose interval is positive. -/
theorem C2_counterexample :
    RlTrace ⟨0, ThreadPhase.idle, ThreadPhase.idle⟩ raceEvents
      ⟨100, ThreadPhase.done, ThreadPhase.done⟩ ∧
    TimesMono raceEvents ∧
    fireTimes raceEvents = [100, 100] ∧
    ¬ Spaced (fireTimes raceEvents) := by
  have hci : (100 : ℚ) = computeIssue 0 100 := by
    unfold computeIssue min_interval; norm_num
  refine ⟨?_, ?_, rfl, ?_⟩
  · refine RlTrace.cons (RlStep.read1 _ 100 100 rfl hci) ?_
    refine RlTrace.cons (RlStep.read2 _ 100 100 rfl hci) ?_
    refine RlTrace.cons (RlStep.fire1 _ 100 rfl) ?_
    exact RlTrace.cons (RlStep.fire2 _ 100 rfl) (RlTrace.nil _)
  · unfold TimesMono raceEvents
    simp [eventTime]
  · show ¬ Spaced [100, 100]
    intro h
    have h1 := (List.chain'_cons.mp h).1
    have := min_interval_pos
    linarith

/-! ## `post_request`: the unhandled timeout (claim C5) -/

/-- C5: the submit-answer capability does return a structured error for a
serialization failure, but a request timeout is not returned as a
structured error — it escapes `post_request` as a `NameError` (the handler
clause names `asyncio.TimeoutError` while the module never imports
`asyncio`), contradicting the claim that no exception escapes to abort the
Acting step. -/
theorem C5_timeout_escapes :
    post_request none NetOutcome.timeout =
      Except.error (PyExn.nameError "asyncio") ∧
    post_request none (NetOutcome.connectionError "refused") =
      Except.error (PyExn.nameError "asyncio") ∧
    post_request (some "circular reference") NetOutcome.timeout =
      Except.ok (jsonErrString
        "Failed to serialize payload: circular reference") :=
  ⟨rfl, rfl, rfl⟩

/-! ## `download_file`: status handling (claim C9) -/

/-- C9 counterexample: HTTP 206 is a 2xx status, yet the fetch-file
capability — which tests `status != 200`, not "non-2xx" — returns a textual
error and stores nothing for it, against the claim that every 2xx response
is stored and its local path returned. -/
theorem C9_counterexample :
    is2xx 206 = true ∧
    (download_file (some "data.bin") "" 206 "payload").2 = none ∧
    (download_file (some "data.bin") "" 206 "payload").1 =
      "Error: Failed to download: HTTP 206" := by
  refine ⟨by decide, ?_, ?_⟩
  · unfold download_file
    rw [if_pos (by decide)]
  · unfold download_file
    rw [if_pos (by decide)]
    decide

/-- C9 amended: the fetch-file capability branches on `status = 200`, not
on 2xx membership: every non-200 response (2xx or not) yields the textual
error naming the status and stores nothing — in particular a 404 yields an
error string containing "404" — and a 200 response stores the body at the
computed local path and returns that path. -/
theorem C9_status_200_handling (fn : Option String) (up : String)
    (status : ℤ) (body : String) :
    (status ≠ 200 →
      download_file fn up status body =
        ("Error: Failed to download: HTTP " ++ toString status, none)) ∧
    strContains (download_file fn up 404 body).1 "404" = true ∧
    download_file fn up 200 body =
      (downloadPath fn up, some (downloadPath fn up, body)) := by
  refine ⟨?_, ?_, ?_⟩
  · intro h
    unfold download_file
    rw [if_pos h]
  · show strContains
      (download_file fn up 404 body).1 "404" = true
    unfold download_file
    rw [if_pos (by decide)]
    decide
  · unfold download_file
    rw [if_neg (by decide)]

/-- C9 amended-claim witness at a concrete 404 and a concrete 200. -/
theorem C9_witness :
    ((503 : ℤ) ≠ 200 →
      download_file (some "report.pdf") "" 503 "oops" =
        ("Error: Failed to download: HTTP " ++ toString (503 : ℤ), none)) ∧
    strContains (download_file (some "report.pdf") "" 404 "oops").1 "404"
      = true ∧
    download_file (some "report.pdf") "" 200 "oops" =
      (downloadPath (some "report.pdf") "",
        some (downloadPath (some "report.pdf") "", "oops")) :=
  C9_status_200_handling (some "report.pdf") "" 503 "oops"

/-! ## `download_file`: confinement of the saved path (claim C10) -/

theorem foldl_slash_free (l : List Char) :
    ∀ acc : List Char, '/' ∉ acc →
      '/' ∉ l.foldl (fun acc c => if c = '/' then [] else acc ++ [c]) acc := by
  induction l with
  | nil => intro acc h; exact h
  | cons c t ih =>
      intro acc h
      show '/' ∉ t.foldl _ (if c = '/' then [] else acc ++ [c])
      apply ih
      by_cases hc : c = '/'
      · rw [if_pos hc]
        exact List.not_mem_nil _
      · rw [if_neg hc]
        intro hm
        rcases List.mem_append.mp hm with h1 | h2
        · exact h h1
        · exact hc (List.mem_singleton.mp h2).symm

theorem basename_slash_free (s : String) : '/' ∉ (basename s).data := by
  show '/' ∉ afterLastSlash s.data
  unfold afterLastSlash
  exact foldl_slash_free s.data [] (List.not_mem_nil _)

/-- C10: for every filename argument — including ones with separators or
`..` components — and every filename derived from the URL path, the write
target is `LLMFiles` joined with the basename of the chosen name; that
basename contains no path separator, so whenever the write creates a file
(the basename is not one of the directory-denoting names `""`, `"."`,
`".."`, which `open(..., "wb")` rejects), the saved artifact lies directly
inside the `LLMFiles` working directory — the filename argument can never
direct a write outside it. -/
theorem C10_path_confinement (fn : Option String) (up : String) :
    downloadPath fn up = "LLMFiles/" ++ sanitizedFilename fn up ∧
    '/' ∉ (sanitizedFilename fn up).data ∧
    (sanitizedFilename fn up ≠ "" → sanitizedFilename fn up ≠ "." →
      sanitizedFilename fn up ≠ ".." →
      insideLLMFiles (downloadPath fn up)) := by
  refine ⟨rfl, basename_slash_free _, ?_⟩
  intro h1 h2 h3
  exact ⟨sanitizedFilename fn up, rfl,
    fun hm => basename_slash_free (chooseFilename fn up) hm, h1, h2, h3⟩

/-- C10 witness: the traversal attempt `../../etc/passwd` lands on
`LLMFiles/passwd`, strictly inside the working directory. -/
theorem C10_witness :
    downloadPath (some "../../etc/passwd") "" =
      "LLMFiles/" ++ sanitizedFilename (some "../../etc/passwd") "" ∧
    '/' ∉ (sanitizedFilename (some "../../etc/passwd") "").data ∧
    (sanitizedFilename (some "../../etc/passwd") "" ≠ "" →
      sanitizedFilename (some "../../etc/passwd") "" ≠ "." →
      sanitizedFilename (some "../../etc/passwd") "" ≠ ".." →
      insideLLMFiles (downloadPath (some "../../etc/passwd") "")) :=
  C10_path_confinement (some "../../etc/passwd") ""

end LLMQuiz
